import Mathlib

/-
Verification of the wuzapi-chatwoot bridge.

The Python sources are shallowly embedded: JSON payloads become an inductive
`JValue`, Python dictionaries become association lists, network and subprocess
effects become explicit oracle parameters, and each use case becomes a pure
function returning its boolean outcome together with the trace of outbound
operations and cache writes it performed.
-/

namespace Bridge

/-- JSON values as delivered to the webhook handlers (floats do not occur in
the fields the claims touch, so numbers are integers). -/
inductive JValue where
  | null
  | bool (b : Bool)
  | num (n : Int)
  | str (s : String)
  | arr (xs : List JValue)
  | obj (fields : List (String × JValue))

/-- Python truthiness of a JSON value (`None`, `False`, `0`, `""`, `[]`, and
`{}` are falsy). -/
def truthy : JValue → Bool
  | .null => false
  | .bool b => b
  | .num n => n != 0
  | .str s => s != ""
  | .arr xs => !xs.isEmpty
  | .obj fs => !fs.isEmpty

/-- Lookup of a key in a Python dict (association list, unique keys). -/
def dLookup (d : List (String × JValue)) (k : String) : Option JValue :=
  (d.find? (fun p => p.1 == k)).map (·.2)

/-- `d.get(k, dflt)` on a Python dict. -/
def dGetD (d : List (String × JValue)) (k : String) (dflt : JValue) : JValue :=
  (dLookup d k).getD dflt

/-- `k in d` on a Python dict. -/
def hasKey (d : List (String × JValue)) (k : String) : Bool :=
  (dLookup d k).isSome

/-- `v == s` where `s` is a Python string literal: in Python nothing but an
equal string compares equal to a string. -/
def isStr (v : JValue) (s : String) : Bool :=
  match v with
  | .str t => t == s
  | _ => false

/-- Python `str()` of a JSON value as used inside f-strings.  The claims only
ever render `None`/booleans/numbers/strings; list and dict renderings are
abstracted placeholders (no claim evaluates them). -/
def pyStr : JValue → String
  | .null => "None"
  | .bool true => "True"
  | .bool false => "False"
  | .num n => toString n
  | .str s => s
  | .arr _ => "[...]"
  | .obj _ => "\x7b...\x7d"

/-- Whether `pat` occurs as a contiguous run inside `s` (character lists). -/
def subInList (pat : List Char) : List Char → Bool
  | [] => pat.isEmpty
  | c :: rest => pat.isPrefixOf (c :: rest) || subInList pat rest

/-- `pat in s` for Python substring tests. -/
def strContains (s pat : String) : Bool :=
  subInList pat.data s.data

/-- One fuel-measured pass of left-to-right, non-overlapping replacement of
`pat` by `rep`; the fuel (initially the subject's length) only rules the
recursion and never runs out for a nonempty pattern. -/
def replChars (pat rep : List Char) : Nat → List Char → List Char
  | _, [] => []
  | 0, s => s
  | fuel + 1, c :: rest =>
    if pat.isPrefixOf (c :: rest) then
      rep ++ replChars pat rep fuel ((c :: rest).drop pat.length)
    else c :: replChars pat rep fuel rest

/-- Python `s.replace(pat, rep)` for a nonempty `pat` (every pattern the code
replaces is nonempty). -/
def pyReplace (s pat rep : String) : String :=
  if pat.data.isEmpty then s
  else String.mk (replChars pat.data rep.data s.data.length s.data)

/-- Python `s.upper()` (the code only upper-cases ASCII tokens). -/
def pyUpper (s : String) : String := String.mk (s.data.map Char.toUpper)

/-- Python `s.lower()` (content types are ASCII). -/
def pyLower (s : String) : String := String.mk (s.data.map Char.toLower)

/-- Decimal digit accumulation for `pyParseInt`. -/
def digitsValAux : Nat → List Char → Option Nat
  | acc, [] => some acc
  | acc, c :: rest =>
    if c.isDigit then digitsValAux (acc * 10 + (c.toNat - 48)) rest else none

/-- Python `int(s)` restricted to the optionally-negated decimal strings this
system ever stores (whitespace, `+` signs and underscores never occur in
them); `none` plays the raised `ValueError`. -/
def pyParseInt (s : String) : Option Int :=
  match s.data with
  | [] => none
  | '-' :: rest =>
    match rest with
    | [] => none
    | _ => (digitsValAux 0 rest).map (fun n => -(n : Int))
  | ds => (digitsValAux 0 ds).map (fun n => (n : Int))

/-! ## PhoneNumber value object (src/domain/value_objects/phone_number.py)

A `PhoneNumber` is a wrapper around its nonempty `raw` JID string; the
embedding carries the raw string and defines the derived views as functions. -/

/-- `PhoneNumber.clean`: the number without WhatsApp suffixes.  The literal
`status@broadcast` maps to `status_broadcast`; otherwise `@s.whatsapp.net`,
`@g.us` and `+` are removed and a `:device` suffix is cut at the colon. -/
def pclean (raw : String) : String :=
  if raw = "status@broadcast" then "status_broadcast"
  else
    let c := pyReplace (pyReplace (pyReplace raw "@s.whatsapp.net" "") "@g.us" "") "+" ""
    if c.data.contains ':' then String.mk (c.data.takeWhile (fun ch => ch != ':'))
    else c

/-- `PhoneNumber.is_group`: the raw JID contains `@g.us`. -/
def pIsGroup (raw : String) : Bool := strContains raw "@g.us"

/-- `PhoneNumber.is_status`: the raw JID is exactly `status@broadcast`. -/
def pIsStatus (raw : String) : Bool := raw = "status@broadcast"

/-- `PhoneNumber.formatted`: international-style rendering. -/
def pformatted (raw : String) : String :=
  if pIsStatus raw then "+status_broadcast"
  else if pIsGroup raw then "+group_" ++ pyReplace raw "@g.us" ""
  else
    let c := pclean raw
    if !(c.data.head? == some '+') then "+" ++ c else c

/-- The code-point ranges of Unicode general category Nd (decimal digits),
transcribed from the Unicode 14.0 character database that CPython 3.11
ships; this is exactly the set `\d` matches on `str` patterns.  Later
Unicode versions add a few scripts (Kawi, Nag Mundari, Tangsa, Dives Akuru,
Ahom extensions…) whose boundary code points no theorem here touches. -/
def ndDigitRanges : List (Nat × Nat) :=
  [(0x30, 0x39), (0x660, 0x669), (0x6F0, 0x6F9), (0x7C0, 0x7C9), (0x966, 0x96F),
   (0x9E6, 0x9EF), (0xA66, 0xA6F), (0xAE6, 0xAEF), (0xB66, 0xB6F), (0xBE6, 0xBEF),
   (0xC66, 0xC6F), (0xCE6, 0xCEF), (0xD66, 0xD6F), (0xDE6, 0xDEF), (0xE50, 0xE59),
   (0xED0, 0xED9), (0xF20, 0xF29), (0x1040, 0x1049), (0x1090, 0x1099), (0x17E0, 0x17E9),
   (0x1810, 0x1819), (0x1946, 0x194F), (0x19D0, 0x19D9), (0x1A80, 0x1A89), (0x1A90, 0x1A99),
   (0x1B50, 0x1B59), (0x1BB0, 0x1BB9), (0x1C40, 0x1C49), (0x1C50, 0x1C59), (0xA620, 0xA629),
   (0xA8D0, 0xA8D9), (0xA900, 0xA909), (0xA9D0, 0xA9D9), (0xA9F0, 0xA9F9), (0xAA50, 0xAA59),
   (0xABF0, 0xABF9), (0xFF10, 0xFF19), (0x104A0, 0x104A9), (0x10D30, 0x10D39), (0x11066, 0x1106F),
   (0x110F0, 0x110F9), (0x11136, 0x1113F), (0x111D0, 0x111D9), (0x112F0, 0x112F9), (0x11450, 0x11459),
   (0x114D0, 0x114D9), (0x11650, 0x11659), (0x116C0, 0x116C9), (0x11730, 0x11739), (0x118E0, 0x118E9),
   (0x11950, 0x11959), (0x11C50, 0x11C59), (0x11D50, 0x11D59), (0x11DA0, 0x11DA9), (0x16A60, 0x16A69),
   (0x16AC0, 0x16AC9), (0x16B50, 0x16B59), (0x1D7CE, 0x1D7FF), (0x1E140, 0x1E149), (0x1E2F0, 0x1E2F9),
   (0x1E950, 0x1E959), (0x1FBF0, 0x1FBF9)]

/-- What CPython's `\d` matches on a `str` pattern: any Unicode decimal
digit (general category Nd), not only the ASCII digits. -/
def isPyDigit (c : Char) : Bool :=
  ndDigitRanges.any (fun r => r.1 ≤ c.toNat && c.toNat ≤ r.2)

/-- Python `re.match(r'^\d+$', s)` succeeds: one or more `\d` characters
(Unicode decimal digits, see `isPyDigit`) followed by the end of the string,
where `$` also matches just before a single trailing newline (CPython `re`
semantics). -/
def pyDigitMatch (s : String) : Bool :=
  let core := if s.data.getLast? == some '\n' then s.data.dropLast else s.data
  !core.isEmpty && core.all isPyDigit

/-- `PhoneNumber.from_whatsapp_jid`: returns the accepted raw JID, or `none`
when the factory rejects it.  Order of the filters follows the source: empty,
`@newsletter`, `@lid`, the `status@broadcast` special case, then digit/length
validation for non-group JIDs. -/
def from_whatsapp_jid (jid : String) : Option String :=
  if jid = "" then none
  else if strContains jid "@newsletter" then none
  else if strContains jid "@lid" then none
  else if jid = "status@broadcast" then some jid
  else
    let c := pclean jid
    if !pIsGroup jid then
      if !pyDigitMatch c then none
      else if c.length < 10 || c.length > 15 then none
      else some jid
    else some jid

/-! ## MessageType (src/domain/value_objects/message_type.py) -/

inductive MessageType where
  | text | image | video | audio | document | sticker
  | location | contact | ptt | reaction | unknown
deriving Repr, DecidableEq

/-- The wire value of each `MessageType` member. -/
def MessageType.value : MessageType → String
  | .text => "text" | .image => "image" | .video => "video" | .audio => "audio"
  | .document => "document" | .sticker => "sticker" | .location => "location"
  | .contact => "contact" | .ptt => "ptt" | .reaction => "reaction"
  | .unknown => "unknown"

/-! ## WhatsAppMessage entity (src/domain/entities/whatsapp_message.py) -/

/-- The entity's fields; `sender` is carried as the raw JID accepted by the
`PhoneNumber` factory, `raw_data` is the original webhook payload dict and
`metadata` the small dict built by the factory. -/
structure WhatsAppMessage where
  message_id : String
  senderRaw : String
  timestamp : Int
  message_type : MessageType
  is_from_me : Bool
  is_group : Bool
  raw_data : List (String × JValue)
  metadata : List (String × JValue)

/-- Names of the methods defined on the `WhatsAppMessage` entity in the
source.  `extract_location_info`, which the sync use case invokes for
location messages, is not among them: that call raises `AttributeError`. -/
def whatsAppMessageMethods : List String :=
  ["is_incoming", "extract_text_content", "extract_image_info",
   "extract_video_info", "extract_audio_info", "extract_document_info",
   "extract_media_info", "from_wuzapi_event"]

/-- `WhatsAppMessage.extract_text_content`.  Any structural surprise (a
non-dict `event`, `Message`, or nested media object) raises inside the
method's `try` and yields `""`; a non-dict `Message` value always ends in
`""` whichever of Python's `in`/indexing behaviours fires, so it is folded
into the catch-all branches here.  The happy paths return the stored JSON
value unchanged, exactly as the Python returns it without coercion. -/
def extract_text_content (raw : List (String × JValue)) : JValue :=
  match dGetD raw "event" (.obj []) with
  | .obj evd =>
    match dGetD evd "Message" (.obj []) with
    | .obj d =>
      if hasKey d "conversation" then dGetD d "conversation" .null
      else if hasKey d "extendedTextMessage" then
        match dGetD d "extendedTextMessage" .null with
        | .obj e => dGetD e "text" (.str "")
        | _ => .str ""
      else if hasKey d "imageMessage" then
        match dGetD d "imageMessage" .null with
        | .obj e => dGetD e "caption" (.str "")
        | _ => .str ""
      else if hasKey d "videoMessage" then
        match dGetD d "videoMessage" .null with
        | .obj e => dGetD e "caption" (.str "")
        | _ => .str ""
      else if hasKey d "documentMessage" then
        match dGetD d "documentMessage" .null with
        | .obj e => dGetD e "caption" (.str "")
        | _ => .str ""
      else if hasKey d "documentWithCaptionMessage" then
        match dGetD d "documentWithCaptionMessage" .null with
        | .obj e =>
          match dGetD e "message" (.obj []) with
          | .obj m =>
            match dGetD m "documentMessage" (.obj []) with
            | .obj dm => dGetD dm "caption" (.str "")
            | _ => .str ""
          | _ => .str ""
        | _ => .str ""
      else .str ""
    | _ => .str ""
  | _ => .str ""

/-- The media-info fields copied verbatim by `extract_media_info`. -/
def requiredMediaFields : List String :=
  ["URL", "url", "directPath", "mediaKey", "mimetype", "fileSha256",
   "fileSHA256", "fileEncSha256", "fileEncSHA256", "fileLength", "fileName",
   "PTT"]

/-- The `type_keys` table of `extract_media_info` (it has no entry for
stickers). -/
def typeKeysMap : MessageType → Option String
  | .image => some "imageMessage"
  | .video => some "videoMessage"
  | .audio => some "audioMessage"
  | .ptt => some "audioMessage"
  | .document => some "documentMessage"
  | _ => none

/-- `WhatsAppMessage.extract_media_info`.  When `type_keys` misses, the code
only falls back for `DOCUMENT` with a `documentWithCaptionMessage` — but
`DOCUMENT` is in the table, so that branch is dead and a miss returns `None`.
A non-dict nested media value ends in `None` on every Python path (falsy
check, bare `except`, or an empty result), folded into the catch-alls. -/
def extract_media_info (msg : WhatsAppMessage) : Option (List (String × JValue)) :=
  if msg.raw_data.isEmpty then none
  else
    match dGetD msg.raw_data "event" (.obj []) with
    | .obj evd =>
      match dGetD evd "Message" (.obj []) with
      | .obj content =>
        match typeKeysMap msg.message_type with
        | none => none
        | some k =>
          match dGetD content k (.obj []) with
          | .obj mo =>
            if mo.isEmpty then none
            else
              let result := requiredMediaFields.filterMap
                (fun f => (dLookup mo f).map (fun v => (f, v)))
              if result.isEmpty then none else some result
          | _ => none
      | _ => none
    | _ => none

/-! ## Cache model (src/infrastructure/persistence/redis_cache.py,
memory_cache.py)

The live cache contents are an association list from the use-case-level key
(the adapters uniformly prepend `chatwoot:conv:`, which is therefore dropped)
to the stored string value.  TTLs appear only in the recorded writes. -/

def cacheLookup (cache : List (String × String)) (k : String) : Option String :=
  (cache.find? (fun p => p.1 == k)).map (·.2)

/-- Truthiness of `cache.get_conversation_id(k)` as seen by a use case.  The
Redis adapter parses the stored string with `int()` (a failed parse is caught
and reported as a miss), the in-memory adapter returns the stored value; on
every value this system ever writes (decimal conversation ids and the marker
`"1"`) both agree with this reading. -/
def cacheHitTruthy (cache : List (String × String)) (k : String) : Bool :=
  match cacheLookup cache k with
  | some v => v != "" && v != "0"
  | none => false

/-- The cached conversation id for a phone, through the Redis adapter's
`int()` parse. -/
def cacheConvId (cache : List (String × String)) (phone : String) : Option Int :=
  (cacheLookup cache phone).bind pyParseInt

/-- Truthiness of an `Optional[int]` (Python: `None` and `0` are falsy). -/
def optIntTruthy : Option Int → Bool
  | some n => n != 0
  | none => false

/-! ## Sync-to-Chatwoot use case
(src/application/use_cases/sync_message_to_chatwoot.py)

Outbound Chatwoot calls and the downloader are oracle results in `SyncEnv`;
`syncExecute` returns the boolean outcome (as observed through Python
truthiness by the caller), the Chatwoot message sends it performed, and the
cache writes `(key, value, ttl)` it performed. -/

/-- A message-sending call on the Chatwoot repository. -/
inductive ChatwootOp where
  | msg (conv : Int) (content : JValue) (direction : String)
  | attach (conv : Int) (caption : JValue) (direction : String)

structure SyncEnv where
  cache : List (String × String)
  contact_id : Option Int
  conv_id : Option Int
  send_id : Option Int
  attach_id : Option Int
  download_ok : Bool

structure SyncResult where
  success : Bool
  ops : List ChatwootOp
  writes : List (String × String × Nat)

/-- `media_type_map` of `_process_multimedia_message` (this one does map
stickers). -/
def mediaFamily : MessageType → String
  | .image => "image"
  | .video => "video"
  | .audio => "audio"
  | .ptt => "audio"
  | .document => "document"
  | .sticker => "sticker"
  | _ => ""

/-- The group prefixing `f"**{sender_name}:** {content}"` applied by every
content branch when the message is from a group. -/
def groupPrefixed (msg : WhatsAppMessage) (content : JValue) : JValue :=
  if msg.is_group then
    .str ("**" ++ pyStr (dGetD msg.metadata "sender_name" (.str "Usuario"))
          ++ ":** " ++ pyStr content)
  else content

/-- `SyncMessageToChatwootUseCase._process_multimedia_message`. -/
def processMultimedia (env : SyncEnv) (msg : WhatsAppMessage) (conv : Int)
    (direction : String) : Bool × List ChatwootOp × List (String × String × Nat) :=
  let mediaType := mediaFamily msg.message_type
  match extract_media_info msg with
  | none =>
    let fallback := groupPrefixed msg (.str ("[" ++ pyUpper mediaType ++ " - Error Info]"))
    (optIntTruthy env.send_id, [.msg conv fallback direction], [])
  | some _info =>
    if !env.download_ok then (false, [], [])
    else
      let caption0 := extract_text_content msg.raw_data
      let caption1 := if truthy caption0 then caption0 else .str (pyUpper mediaType)
      let caption := groupPrefixed msg caption1
      match env.attach_id with
      | some n =>
        if n != 0 then
          (true, [.attach conv caption direction],
           if msg.is_from_me then [("synced_to_chatwoot:" ++ toString n, "1", 60)] else [])
        else (false, [.attach conv caption direction], [])
      | none => (false, [.attach conv caption direction], [])

/-- Step 4 of `SyncMessageToChatwootUseCase.execute`: conversation
resolution — cached id if truthy, else the create-or-get result, cached with
the default TTL 3600 when truthy; `none` when the use case aborts with
`False`. -/
def resolveConversation (env : SyncEnv) (phone : String) :
    Option (Int × List (String × String × Nat)) :=
  let conv0 := cacheConvId env.cache phone
  if optIntTruthy conv0 then some (conv0.getD 0, [])
  else
    match env.conv_id with
    | some c => if c != 0 then some (c, [(phone, toString c, 3600)]) else none
    | none => none

/-- `SyncMessageToChatwootUseCase.execute`.  The location branch invokes
`message.extract_location_info()`, a method the entity does not define (see
`whatsAppMessageMethods`): the `AttributeError` is caught by the top-level
handler and the run ends with `False`, keeping the side effects performed so
far. -/
def syncExecute (env : SyncEnv) (msg : WhatsAppMessage) : SyncResult :=
  if msg.is_from_me &&
     cacheHitTruthy env.cache ("sent_from_chatwoot:" ++ msg.message_id) then
    ⟨true, [], []⟩
  else
    let phone := pformatted msg.senderRaw
    if !optIntTruthy env.contact_id then ⟨false, [], []⟩
    else
      match resolveConversation env phone with
      | none => ⟨false, [], []⟩
      | some (conv, w1) =>
        let direction := if msg.is_from_me then "outgoing" else "incoming"
        if msg.message_type = .image ∨ msg.message_type = .video ∨
           msg.message_type = .audio ∨ msg.message_type = .ptt ∨
           msg.message_type = .document ∨ msg.message_type = .sticker then
          let (ok, ops, w2) := processMultimedia env msg conv direction
          ⟨ok, ops, w1 ++ w2⟩
        else if msg.message_type = .text then
          let content := groupPrefixed msg (extract_text_content msg.raw_data)
          if truthy content then
            let marker :=
              match env.send_id with
              | some n =>
                if n != 0 && msg.is_from_me then
                  [("synced_to_chatwoot:" ++ toString n, "1", 30)]
                else []
              | none => []
            ⟨env.send_id.isSome, [.msg conv content direction], w1 ++ marker⟩
          else ⟨false, [], w1⟩
        else if msg.message_type = .location then
          ⟨false, [], w1⟩
        else
          let content := groupPrefixed msg
            (.str ("[" ++ pyUpper msg.message_type.value ++ "]"))
          ⟨optIntTruthy env.send_id, [.msg conv content direction], w1⟩

/-! ## FFmpeg audio converter, format predicate
(src/infrastructure/media/audio_converter.py) -/

/-- `PTT_COMPATIBLE_FORMATS`. -/
def pttCompatibleFormats : List String :=
  ["audio/ogg", "audio/opus", "audio/ogg; codecs=opus"]

/-- `FFmpegAudioConverter.needs_conversion`: no conversion needed exactly when
one of the compatible formats occurs as a substring of the lower-cased
content type. -/
def needs_conversion (contentType : String) : Bool :=
  !(pttCompatibleFormats.any (fun c => strContains (pyLower contentType) c))

/-! ## base64 (Python `base64.b64encode`, used by the audio fallbacks) -/

/-- A character of the standard base64 alphabet. -/
def b64Char (i : Nat) : Char :=
  ("ABCDEFGHIJKLMNOPQRSTUVWXYZabcdefghijklmnopqrstuvwxyz0123456789+/").toList.getD i 'A'

/-- Standard base64 of a byte list. -/
def b64EncodeBytes : List Nat → String
  | [] => ""
  | [a] => String.mk [b64Char (a / 4), b64Char (a % 4 * 16)] ++ "=="
  | [a, b] =>
    String.mk [b64Char (a / 4), b64Char (a % 4 * 16 + b / 16),
               b64Char (b % 16 * 4)] ++ "="
  | a :: b :: c :: rest =>
    String.mk [b64Char (a / 4), b64Char (a % 4 * 16 + b / 16),
               b64Char (b % 16 * 4 + c / 64), b64Char (c % 64)]
      ++ b64EncodeBytes rest

/-! ## Send-to-WhatsApp use case
(src/application/use_cases/send_message_to_whatsapp.py)

Outbound WuzAPI sends are recorded as `WuzSend` values; HTTP downloads, the
converter and the duration/waveform probes are oracle results in `SendEnv`. -/

/-- A message-sending call on the WuzAPI repository. -/
inductive WuzSend where
  | text (phone : String) (body : JValue)
  | image (phone : String) (url caption : JValue)
  | video (phone : String) (url caption : JValue)
  | document (phone : String) (url filename : JValue)
  | audio (phone : String) (bytes : List Nat) (mime : String)
          (seconds : Int) (waveform : List Int)

structure SendEnv where
  cache : List (String × String)
  textOk : Bool
  imageOk : Bool
  videoOk : Bool
  documentOk : Bool
  audioOk : Bool
  download : Option (List Nat × String)
  converter : Bool
  convAvailable : Bool
  convertResult : Option (List Nat)
  duration : Int
  waveform : List Int

/-- `SendMessageToWhatsAppUseCase._should_process`.  `.error` marks the one
uncaught fault the method can raise: `sender.get` on a non-dict `sender`
value (reached only after the three preceding checks passed). -/
def shouldProcess (d : List (String × JValue)) : Except Unit Bool :=
  if !isStr (dGetD d "event" (.str "")) "message_created" then .ok false
  else if !isStr (dGetD d "message_type" (.str "")) "outgoing" then .ok false
  else if truthy (dGetD d "private" (.bool false)) then .ok false
  else
    match dGetD d "sender" (.obj []) with
    | .obj s =>
      let st := dGetD s "type" (.str "")
      if isStr st "user" || isStr st "agent_bot" then .ok true else .ok false
    | _ => .error ()

/-- `SendMessageToWhatsAppUseCase._extract_phone`; `none` marks an uncaught
fault (non-dict `conversation`/`contact_inbox` or non-string `source_id`). -/
def extractPhone (conversation : JValue) : Option String :=
  match conversation with
  | .obj c =>
    match dGetD c "contact_inbox" (.obj []) with
    | .obj ci =>
      match dGetD ci "source_id" (.str "") with
      | .str s => some (pyReplace (pyReplace s "+" "") "group_" "")
      | _ => none
    | _ => none
  | _ => none

/-- `SendMessageToWhatsAppUseCase._send_audio_as_document` (ffmpeg-less or
failed-conversion fallback; the `mime` local of the source is computed but
never used). -/
def sendAudioAsDocument (env : SendEnv) (phone : String) (bytes : List Nat)
    (contentType : String) : Bool × List WuzSend :=
  let ext :=
    if strContains contentType "wav" then "wav"
    else if strContains contentType "mp3" || strContains contentType "mpeg" then "mp3"
    else "ogg"
  let filename := "audio." ++ ext
  let dataUri := "data:application/octet-stream;base64," ++ b64EncodeBytes bytes
  (env.documentOk, [.document phone (.str dataUri) (.str filename)])

/-- The final PTT send of `_send_audio`: duration and waveform are computed
only when a converter is configured. -/
def finishAudio (env : SendEnv) (phone : String) (bytes : List Nat)
    (contentType : String) : Bool × List WuzSend :=
  let dur := if env.converter then env.duration else 0
  let wf := if env.converter then env.waveform else []
  (env.audioOk, [.audio phone bytes contentType dur wf])

/-- `SendMessageToWhatsAppUseCase._send_audio`. -/
def sendAudioPipeline (env : SendEnv) (phone : String) : Bool × List WuzSend :=
  match env.download with
  | none => (false, [])
  | some (bytes0, ct0) =>
    if env.converter && needs_conversion ct0 then
      if !env.convAvailable then sendAudioAsDocument env phone bytes0 ct0
      else
        match env.convertResult with
        | none => sendAudioAsDocument env phone bytes0 ct0
        | some ogg => finishAudio env phone ogg "audio/ogg; codecs=opus"
    else finishAudio env phone bytes0 ct0

/-- `SendMessageToWhatsAppUseCase._send_multimedia`; `none` marks an uncaught
fault (non-dict attachment, non-string `file_type` hit by `.upper()`, or a
`data_url` that Python cannot slice in the log line). -/
def sendMultimedia (env : SendEnv) (phone : String) (content : JValue)
    (attachment : JValue) : Option (Bool × List WuzSend) :=
  match attachment with
  | .obj a =>
    match dGetD a "file_type" (.str "unknown") with
    | .str ft =>
      let dataUrl := dGetD a "data_url" (.str "")
      let fileName := dGetD a "file_name" (.str "archivo")
      let sliceable := match dataUrl with
        | .str _ => true
        | .arr _ => true
        | _ => false
      if !sliceable then none
      else if !truthy dataUrl then some (false, [])
      else if ft = "image" then
        some (env.imageOk, [.image phone dataUrl (if truthy content then content else .str "")])
      else if ft = "video" then
        some (env.videoOk, [.video phone dataUrl (if truthy content then content else .str "")])
      else if ft = "audio" then some (sendAudioPipeline env phone)
      else if ft = "file" then
        some (env.documentOk, [.document phone dataUrl fileName])
      else
        let fallback :=
          if truthy content then
            pyStr content ++ "\n\n[Archivo: " ++ pyStr fileName ++ "]"
          else "[Archivo: " ++ pyStr fileName ++ "]"
        some (env.textOk, [.text phone (.str fallback)])
    | _ => none
  | _ => none

/-- `SendMessageToWhatsAppUseCase.execute`: anti-loop guard on the payload's
`id` (checked only when the id is truthy), eligibility filter, phone
extraction, then dispatch on attachments/content.  Every uncaught fault is
caught at the top and reported as `false`. -/
def sendExecute (env : SendEnv) (payload : JValue) : Bool × List WuzSend :=
  match payload with
  | .obj d =>
    let msgId := dGetD d "id" .null
    if truthy msgId &&
       cacheHitTruthy env.cache ("synced_to_chatwoot:" ++ pyStr msgId) then
      (true, [])
    else
      match shouldProcess d with
      | .error _ => (false, [])
      | .ok false => (false, [])
      | .ok true =>
        let content := dGetD d "content" (.str "")
        let attachments := dGetD d "attachments" (.arr [])
        let conversation := dGetD d "conversation" (.obj [])
        match extractPhone conversation with
        | none => (false, [])
        | some phone =>
          if phone = "" then (false, [])
          else if truthy attachments then
            match attachments with
            | .arr (a :: _) =>
              match sendMultimedia env phone content a with
              | some r => r
              | none => (false, [])
            | _ => (false, [])
          else if truthy content then (env.textOk, [.text phone content])
          else (false, [])
  | _ => (false, [])

/-! ## WuzAPI client (src/infrastructure/wuzapi/client.py) -/

structure WuzAPIClientModel where
  base_url : String
  user_token : String
  instance_token : String
  cache_repo : Option Unit
  timeout : Nat

/-- `dependencies.get_wuzapi_client`: the singleton is built from the three
configured strings only, so `cache_repo` keeps its default `None` and
`timeout` its default 90. -/
def get_wuzapi_client (base user inst : String) : WuzAPIClientModel :=
  ⟨String.mk ((base.data.reverse.dropWhile (fun ch => ch == '/')).reverse), user, inst, none, 90⟩

structure HttpResponse where
  status_code : Nat
  body : Option JValue

/-- `WuzAPIClient.send_text_message`: returns the success boolean and the
cache writes `(key, value, ttl)` performed.  The `sent_from_chatwoot` marker
is written only when a cache is attached, the response status is 200/201,
the body parses as JSON, and `data.Id` is truthy; every fault in that block
is swallowed by its inner `try`. -/
def send_text_message (c : WuzAPIClientModel) (resp : HttpResponse) :
    Bool × List (String × String × Nat) :=
  if resp.status_code = 200 || resp.status_code = 201 then
    match c.cache_repo with
    | some _ =>
      match resp.body with
      | some (.obj r) =>
        let msgId := match dGetD r "data" (.obj []) with
          | .obj dd => dGetD dd "Id" .null
          | _ => .null
        if truthy msgId then
          (true, [("sent_from_chatwoot:" ++ pyStr msgId, "1", 30)])
        else (true, [])
      | _ => (true, [])
    | none => (true, [])
  else (false, [])

/-! ## Base webhook handler (src/infrastructure/api/handlers/base_handler.py)

`process_event` is a template over the subclass hooks: the validation verdict
and the processing outcome (`Except` carries an uncaught fault's rendered
message) are parameters, the produced HTTP response is the result. -/

structure WebhookResponse where
  status_code : Nat
  status : String
  reason : Option JValue
  message : Option String
  error : Option String
  data : List (String × JValue)

/-- `BaseWebhookHandler.process_event`.  A non-dict processing result makes
`result.get` raise, and a truthy-`success` result whose `data` value is not a
dict makes the `**` spread of `_success_response` raise; both faults are
caught by the same outer handler, so they land in the 500 branch (the
placeholder error text stands for Python's rendered `AttributeError` /
`TypeError` message, which no claim inspects). -/
def process_event (validated : Bool) (outcome : Except String JValue) :
    WebhookResponse :=
  if !validated then
    ⟨400, "error", some (.str "invalid_payload"),
     some "Payload no válido o incompleto", none, []⟩
  else
    match outcome with
    | .error e => ⟨500, "exception", none, none, some e, []⟩
    | .ok r =>
      match r with
      | .obj res =>
        if truthy (dGetD res "success" .null) then
          match dGetD res "data" (.obj []) with
          | .obj dd => ⟨200, "success", none, none, none, dd⟩
          | _ => ⟨500, "exception", none, none, some "type error", []⟩
        else
          ⟨200, "ignored", some (dGetD res "reason" (.str "unknown")), none,
           none, []⟩
      | _ => ⟨500, "exception", none, none, some "attribute error", []⟩

/-! ## WuzAPI session entity (src/domain/entities/wuzapi_session.py) -/

inductive SessionStatus where
  | connected | disconnected | qr_pending | connecting | unknown
deriving Repr, DecidableEq

structure WuzAPISession where
  instance_id : JValue
  instance_name : JValue
  status : SessionStatus
  jid : JValue
  qr_code : JValue
  webhook : JValue

/-- `WuzAPISession.from_status_response`: derives the status from the
truthiness of `connected`, `loggedIn` and `qrcode` inside the body's `data`
object.  A non-dict `data` value makes `session_data.get` raise
(`.error`). -/
def from_status_response (data : List (String × JValue)) :
    Except Unit WuzAPISession :=
  match dGetD data "data" (.obj []) with
  | .obj s =>
    let connected := truthy (dGetD s "connected" (.bool false))
    let logged_in := truthy (dGetD s "loggedIn" (.bool false))
    let has_qr := truthy (dGetD s "qrcode" .null)
    let st : SessionStatus :=
      if connected && logged_in then .connected
      else if has_qr then .qr_pending
      else if connected then .connecting
      else .disconnected
    .ok ⟨dGetD s "id" (.str ""), dGetD s "name" (.str ""), st,
         dGetD s "jid" .null, dGetD s "qrcode" .null, dGetD s "webhook" .null⟩
  | _ => .error ()

/-! ## Waveform generator (src/infrastructure/media/audio_converter.py,
`FFmpegAudioConverter.get_waveform`)

The ffmpeg PCM extraction is the oracle `pcm`: `none` when the subprocess
fails (non-zero exit, timeout, odd byte count in `struct.unpack`), otherwise
the decoded signed 16-bit samples.  The per-chunk value
`int((rms / 32767) * 200)` is computed in exact arithmetic via
`⌊200·√(q/len)⌋ / 32767⌋ = Nat.sqrt (40000·q·len) / (32767·len)` for the
chunk's sum of squares `q`. -/
def get_waveform (available : Bool) (pcm : Option (List Int))
    (num_points : Nat) : List Int :=
  if !available then List.replicate num_points 0
  else
    match pcm with
    | none => List.replicate num_points 0
    | some samples =>
      let n := samples.length
      if n = 0 then List.replicate num_points 0
      else
        let chunkSize := max 1 (n / num_points)
        (List.range num_points).map (fun i =>
          let start := i * chunkSize
          let stop := min (start + chunkSize) n
          let chunk := (samples.drop start).take (stop - start)
          if chunk.isEmpty then (0 : Int)
          else
            let q := (chunk.map (fun s => (s * s).toNat)).sum
            (Int.ofNat
              (min 100 (Nat.sqrt (40000 * q * chunk.length) / (32767 * chunk.length)))))

/-! ## Dependency wiring (src/infrastructure/api/dependencies.py,
src/shared/config.py)

The send-to-WhatsApp factory is embedded at the call-signature level: the
keyword arguments it passes, the parameters the use case constructor
accepts, and the fields declared on `Settings` (pydantic with
`extra = "ignore"`, so undeclared names raise `AttributeError` on access). -/

/-- Parameters of `SendMessageToWhatsAppUseCase.__init__` (besides `self`). -/
def sendUseCaseInitParams : List String :=
  ["wuzapi_repo", "cache_repo", "audio_converter"]

/-- Keyword arguments passed by `get_send_to_whatsapp_use_case`. -/
def sendFactoryKwargs : List String :=
  ["wuzapi_repo", "cache_repo", "audio_converter", "command_use_case",
   "session_source_id"]

/-- Fields declared on `Settings`. -/
def settingsFieldNames : List String :=
  ["PORT", "HOST", "LOG_LEVEL", "BACKEND_URL", "CHATWOOT_URL",
   "CHATWOOT_API_KEY", "CHATWOOT_ACCOUNT_ID", "CHATWOOT_INBOX_ID",
   "WUZAPI_URL", "WUZAPI_USER_TOKEN", "WUZAPI_INSTANCE_TOKEN",
   "WUZAPI_INSTANCE_ID", "REDIS_URL", "USE_CELERY"]

/-- `Settings` attributes the factory chain reads: the notifier built by
`get_command_use_case` reads `WUZAPI_SESSION_CONTACT_NAME`, and the factory
itself reads `WUZAPI_SESSION_SOURCE_ID`. -/
def sendFactorySettingsAttrs : List String :=
  ["WUZAPI_SESSION_CONTACT_NAME", "WUZAPI_SESSION_SOURCE_ID"]

inductive PyCallResult where
  | ok | attributeFault | typeFault
deriving Repr, DecidableEq

/-- Outcome of one invocation of `get_send_to_whatsapp_use_case` (settings
loaded): reading an undeclared `Settings` attribute raises
`AttributeError`; a keyword argument the constructor does not accept raises
`TypeError`. -/
def get_send_to_whatsapp_use_case_outcome : PyCallResult :=
  if !(sendFactorySettingsAttrs.all (fun a => settingsFieldNames.contains a)) then
    .attributeFault
  else if !(sendFactoryKwargs.all (fun k => sendUseCaseInitParams.contains k)) then
    .typeFault
  else .ok

/-! ## Concrete fixtures used by counterexamples and witnesses -/

/-- The eligibility conditions exactly as the claim states them: `event`
equals `message_created`, `message_type` equals `outgoing`, `private` is
false, and the sender's `type` is `user` or `agent_bot`. -/
def eligible (d : List (String × JValue)) : Bool :=
  isStr (dGetD d "event" (.str "")) "message_created" &&
  isStr (dGetD d "message_type" (.str "")) "outgoing" &&
  !truthy (dGetD d "private" (.bool false)) &&
  (match dGetD d "sender" (.obj []) with
   | .obj s =>
     isStr (dGetD s "type" (.str "")) "user" ||
     isStr (dGetD s "type" (.str "")) "agent_bot"
   | _ => false)

/-- An otherwise fully eligible Chatwoot webhook payload whose `id` is the
falsy integer 0. -/
def exPayloadZeroId : List (String × JValue) :=
  [("id", .num 0), ("event", .str "message_created"),
   ("message_type", .str "outgoing"),
   ("sender", .obj [("type", .str "user")]),
   ("content", .str "hola"),
   ("conversation", .obj
     [("contact_inbox", .obj [("source_id", .str "+573001234567")])])]

/-- A cache holding the anti-loop marker for Chatwoot message id 0. -/
def exCache : List (String × String) := [("synced_to_chatwoot:0", "1")]

/-- A send environment over `exCache` in which every WuzAPI send succeeds. -/
def exSendEnv : SendEnv :=
  ⟨exCache, true, true, true, true, true, none, true, true, none, 0, []⟩

/-- A direct-chat location message from a valid sender. -/
def exLocationMsg : WhatsAppMessage :=
  ⟨"MSGID1", "573001234567@s.whatsapp.net", 0, .location, false, false,
   [("event", .obj [("Message", .obj
      [("locationMessage", .obj [("degreesLatitude", .num 4)])])])],
   [("PushName", .str "Ana")]⟩

/-- A sync environment with an empty cache in which every Chatwoot call
succeeds. -/
def exSyncEnv : SyncEnv := ⟨[], some 5, some 9, some 77, some 88, true⟩

/-- A self-sent direct-chat plain-text message. -/
def exTextMsg : WhatsAppMessage :=
  ⟨"WAMID9", "573001234567@s.whatsapp.net", 0, .text, true, false,
   [("event", .obj [("Message", .obj [("conversation", .str "hola")])])],
   [("PushName", .str "Yo")]⟩

end Bridge

namespace Bridge

/-! ## Theorems for the claims -/

/-- Claim C1 (code bug): the claim says every invocation of
`get_send_to_whatsapp_use_case` succeeds and yields a use case holding five
dependencies, but the factory cannot complete at all: the `Settings` class
declares neither of the session attributes the factory chain reads (so the
attribute access raises `AttributeError`), and `SendMessageToWhatsAppUseCase.
__init__` accepts none of the keywords `command_use_case` /
`session_source_id` the factory passes (so the call would raise `TypeError`
even with those settings present). -/
theorem c1_send_factory_construction_fails :
    get_send_to_whatsapp_use_case_outcome = .attributeFault ∧
    settingsFieldNames.contains "WUZAPI_SESSION_SOURCE_ID" = false ∧
    settingsFieldNames.contains "WUZAPI_SESSION_CONTACT_NAME" = false ∧
    sendFactoryKwargs.all (fun k => sendUseCaseInitParams.contains k) = false := by
  decide

/-- Claim C10 (confirmed): the default wiring builds the WuzAPI client
without a cache (`cache_repo` stays `None`), and then `send_text_message`
never performs a cache write — in particular no `sent_from_chatwoot` marker
is ever created — whatever the send's HTTP response is. -/
theorem c10_default_wiring_never_marks :
    ∀ (b u i : String) (resp : HttpResponse),
      (get_wuzapi_client b u i).cache_repo = none ∧
      (send_text_message (get_wuzapi_client b u i) resp).2 = [] := by
  intro b u i resp
  refine ⟨rfl, ?_⟩
  unfold send_text_message get_wuzapi_client
  split <;> rfl

/-- Claim C9 (confirmed): for every availability flag, extracted-PCM oracle
result and positive requested point count, the waveform has exactly the
requested length with every value in `[0, 100]`, and any failure (tool
unavailable or PCM extraction failed) yields the all-zero list of the
requested length. -/
theorem c9_waveform_bounds (avail : Bool) (pcm : Option (List Int)) (p : Nat)
    (_hp : 0 < p) :
    (get_waveform avail pcm p).length = p ∧
    (∀ x ∈ get_waveform avail pcm p, 0 ≤ x ∧ x ≤ 100) ∧
    ((avail = false ∨ pcm = none) → get_waveform avail pcm p = List.replicate p 0) := by
  have hzero : ∀ x ∈ List.replicate p (0 : Int), 0 ≤ x ∧ x ≤ 100 := by
    intro x hx
    rw [List.eq_of_mem_replicate hx]
    exact ⟨le_refl 0, by norm_num⟩
  cases avail with
  | false =>
    exact ⟨by simp [get_waveform], by simp [get_waveform],
           fun _ => by simp [get_waveform]⟩
  | true =>
    cases pcm with
    | none =>
      exact ⟨by simp [get_waveform], by simp [get_waveform],
             fun _ => by simp [get_waveform]⟩
    | some samples =>
      by_cases hn : samples.length = 0
      · refine ⟨by simp [get_waveform, hn], ?_, ?_⟩
        · simp [get_waveform, hn]
        · rintro (h | h) <;> simp at h
      · refine ⟨by simp [get_waveform, hn], ?_, ?_⟩
        · intro x hx
          simp only [get_waveform, Bool.not_true, Bool.false_eq_true, if_false,
            hn, if_neg hn] at hx
          obtain ⟨i, _, rfl⟩ := List.mem_map.mp hx
          split
          · exact ⟨le_refl 0, by norm_num⟩
          · refine ⟨Int.ofNat_nonneg _, ?_⟩
            rw [show (100 : Int) = Int.ofNat 100 from rfl]
            exact Int.ofNat_le.mpr (min_le_left _ _)
        · rintro (h | h) <;> simp at h

/-- Claim C8 (confirmed): for a status-endpoint body whose `data` object
carries boolean `connected`/`loggedIn` and a string (or absent) `qrcode`,
the factory derives CONNECTED when both flags are true; otherwise
QR_PENDING when the `qrcode` is non-empty; otherwise CONNECTING when
`connected` alone is true; otherwise DISCONNECTED. -/
theorem c8_status_derivation (d : List (String × JValue)) (cb lb : Bool)
    (hc : dGetD d "connected" (.bool false) = .bool cb)
    (hl : dGetD d "loggedIn" (.bool false) = .bool lb) :
    (∀ q : String, dGetD d "qrcode" .null = .str q →
      ∃ s, from_status_response [("data", .obj d)] = .ok s ∧
        s.status = (if cb && lb then .connected
                    else if q ≠ "" then .qr_pending
                    else if cb then .connecting
                    else .disconnected)) ∧
    (dGetD d "qrcode" .null = .null →
      ∃ s, from_status_response [("data", .obj d)] = .ok s ∧
        s.status = (if cb && lb then .connected
                    else if cb then .connecting
                    else .disconnected)) := by
  constructor
  · intro q hq
    refine ⟨_, rfl, ?_⟩
    simp only [hc, hl, hq, truthy]
    by_cases hq0 : q = ""
    · subst hq0
      simp
    · simp [bne_iff_ne, hq0]
  · intro hq
    refine ⟨_, rfl, ?_⟩
    simp [hc, hl, hq, truthy]

/-- Claim C5 (confirmed): the base-handler template answers a rejected
payload with HTTP 400 / `error` / `invalid_payload`; a truthy-`success`
result (whose `data` renders) with HTTP 200 / `success`; a falsy-`success`
result with HTTP 200 / `ignored` carrying the result's reason; an uncaught
processing fault with HTTP 500 / `exception`; and every response's status is
one of exactly those four strings. -/
theorem c5_base_handler_response_shape :
    (∀ o, process_event false o =
      ⟨400, "error", some (.str "invalid_payload"),
       some "Payload no válido o incompleto", none, []⟩) ∧
    (∀ res dd, truthy (dGetD res "success" .null) = true →
      dGetD res "data" (.obj []) = .obj dd →
      process_event true (.ok (.obj res)) = ⟨200, "success", none, none, none, dd⟩) ∧
    (∀ res, truthy (dGetD res "success" .null) = false →
      process_event true (.ok (.obj res)) =
        ⟨200, "ignored", some (dGetD res "reason" (.str "unknown")), none, none, []⟩) ∧
    (∀ e, process_event true (.error e) = ⟨500, "exception", none, none, some e, []⟩) ∧
    (∀ v o, (process_event v o).status = "success" ∨
      (process_event v o).status = "ignored" ∨
      (process_event v o).status = "error" ∨
      (process_event v o).status = "exception") := by
  refine ⟨fun o => rfl, ?_, ?_, fun e => rfl, ?_⟩
  · intro res dd hs hd
    simp [process_event, hs, hd]
  · intro res hs
    simp [process_event, hs]
  · intro v o
    unfold process_event
    rcases v with _ | _
    · simp
    · rcases o with e | r
      · simp
      · rcases r with _ | b | n | s | xs | res <;> simp
        split
        · split <;> simp
        · simp

/-- Witness for C8 at a concrete status body. -/
theorem c8_status_derivation_witness :
    ∃ s, from_status_response
        [("data", .obj [("connected", .bool false), ("loggedIn", .bool false),
                        ("qrcode", .str "QRDATA")])] = .ok s ∧
      s.status = (if false && false then .connected
                  else if "QRDATA" ≠ "" then .qr_pending
                  else if false then .connecting
                  else .disconnected) :=
  (c8_status_derivation
    [("connected", .bool false), ("loggedIn", .bool false), ("qrcode", .str "QRDATA")]
    false false rfl rfl).1 "QRDATA" rfl

/-- Witness for C5 at concrete handler results. -/
theorem c5_base_handler_response_shape_witness :
    process_event true (.ok (.obj [("success", .bool true), ("data", .obj [("event", .str "connected")])])) =
      ⟨200, "success", none, none, none, [("event", .str "connected")]⟩ ∧
    process_event true (.ok (.obj [("success", .bool false), ("reason", .str "wrong_user_id")])) =
      ⟨200, "ignored", some (.str "wrong_user_id"), none, none, []⟩ :=
  ⟨c5_base_handler_response_shape.2.1
     [("success", .bool true), ("data", .obj [("event", .str "connected")])]
     [("event", .str "connected")] rfl rfl,
   c5_base_handler_response_shape.2.2.1
     [("success", .bool false), ("reason", .str "wrong_user_id")] rfl⟩

/-- Witness for C9 at a concrete PCM extraction. -/
theorem c9_waveform_bounds_witness :
    (get_waveform true (some [1000, -2000, 30, 40, 50]) 4).length = 4 ∧
    (∀ x ∈ get_waveform true (some [1000, -2000, 30, 40, 50]) 4, 0 ≤ x ∧ x ≤ 100) ∧
    ((true = false ∨ (some [1000, -2000, 30, 40, 50] : Option (List Int)) = none) →
      get_waveform true (some [1000, -2000, 30, 40, 50]) 4 = List.replicate 4 0) :=
  c9_waveform_bounds true (some [1000, -2000, 30, 40, 50]) 4 (by decide)

/-- Helper: the only cache write conversation resolution can perform is the
conversation id under the phone key with TTL 3600. -/
theorem resolveConversation_writes (env : SyncEnv) (phone : String)
    (c : Int) (w : List (String × String × Nat))
    (h : resolveConversation env phone = some (c, w)) :
    w = [] ∨ w = [(phone, toString c, 3600)] := by
  unfold resolveConversation at h
  by_cases h0 : optIntTruthy (cacheConvId env.cache phone) = true
  · rw [if_pos h0] at h
    simp only [Option.some.injEq, Prod.mk.injEq] at h
    exact Or.inl h.2.symm
  · rw [if_neg h0] at h
    rcases henv : env.conv_id with _ | c'
    · rw [henv] at h
      exact absurd h (by simp)
    · rw [henv] at h
      dsimp only at h
      by_cases hc' : (c' != 0) = true
      · rw [if_pos hc'] at h
        simp only [Option.some.injEq, Prod.mk.injEq] at h
        rcases h with ⟨h1, h2⟩
        subst h1
        exact Or.inr h2.symm
      · rw [if_neg hc'] at h
        exact absurd h (by simp)

/-- Claim C2 (code bug): the claim says a location message is synced to
Chatwoot as `📍 Ubicación: <url>` (with group prefixing and a 60 s self-sent
marker), but the location branch calls `extract_location_info`, which the
`WhatsAppMessage` entity never defines; the `AttributeError` is caught by
the top-level handler, so for every location message no Chatwoot message is
ever sent, the only cache write possibly performed is the TTL-3600
conversation-id write (never a 60 s marker), and — whenever the sync is not
short-circuited by the `sent_from_chatwoot` loop guard — the use case
reports failure.  The last conjunct evaluates a concrete well-formed
location message against an all-successful environment. -/
theorem c2_location_sync_never_sends :
    whatsAppMessageMethods.contains "extract_location_info" = false ∧
    (∀ (env : SyncEnv) (msg : WhatsAppMessage), msg.message_type = .location →
      (syncExecute env msg).ops = [] ∧
      (∀ k v t, (k, v, t) ∈ (syncExecute env msg).writes → t = 3600) ∧
      ((msg.is_from_me &&
        cacheHitTruthy env.cache ("sent_from_chatwoot:" ++ msg.message_id)) = false →
        (syncExecute env msg).success = false)) ∧
    syncExecute exSyncEnv exLocationMsg =
      ⟨false, [], [("+573001234567", "9", 3600)]⟩ := by
  refine ⟨by decide, ?_, by rfl⟩
  intro env msg h
  simp only [syncExecute]
  by_cases hg : (msg.is_from_me &&
      cacheHitTruthy env.cache ("sent_from_chatwoot:" ++ msg.message_id)) = true
  · rw [if_pos hg]
    refine ⟨rfl, fun k v t ht => absurd ht (by simp), fun hguard => ?_⟩
    rw [hguard] at hg
    exact absurd hg (by simp)
  · rw [if_neg hg]
    by_cases hct : (!optIntTruthy env.contact_id) = true
    · rw [if_pos hct]
      exact ⟨rfl, fun k v t ht => absurd ht (by simp), fun _ => rfl⟩
    · rw [if_neg hct]
      rcases hconv : resolveConversation env (pformatted msg.senderRaw) with _ | ⟨c, w1⟩
      · exact ⟨rfl, fun k v t ht => absurd ht (by simp), fun _ => rfl⟩
      · have hw := resolveConversation_writes env (pformatted msg.senderRaw) c w1 hconv
        dsimp only
        rw [if_neg (show ¬(msg.message_type = .image ∨ msg.message_type = .video ∨
              msg.message_type = .audio ∨ msg.message_type = .ptt ∨
              msg.message_type = .document ∨ msg.message_type = .sticker) by
            simp [h])]
        rw [if_neg (show ¬(msg.message_type = .text) by simp [h])]
        rw [if_pos h]
        refine ⟨rfl, ?_, fun _ => rfl⟩
        intro k v t ht
        rcases hw with hw | hw <;> rw [hw] at ht
        · exact absurd ht (by simp)
        · simp at ht
          exact ht.2.2

/-- Claim C3 counterexample: an otherwise fully eligible Chatwoot payload
whose `id` is the falsy integer 0, while the cache holds exactly the marker
`synced_to_chatwoot:0`.  The use case does not skip it: it sends the text to
WhatsApp (one send performed), contradicting the claim that every payload
whose id has an existing marker is skipped without any WuzAPI send. -/
theorem c3_zero_id_bypasses_loop_guard :
    pyStr (dGetD exPayloadZeroId "id" .null) = "0" ∧
    cacheLookup exCache ("synced_to_chatwoot:" ++ pyStr (dGetD exPayloadZeroId "id" .null)) = some "1" ∧
    sendExecute exSendEnv (.obj exPayloadZeroId) =
      (true, [.text "573001234567" (.str "hola")]) ∧
    (sendExecute exSendEnv (.obj exPayloadZeroId)).2.length = 1 := by
  refine ⟨rfl, rfl, rfl, rfl⟩

/-- Claim C3 as amended (the counterexample only forces restricting the
anti-loop guard to truthy ids, matching the code's `if message_id:` check):
for every payload whose `id` field is truthy and for which the cache holds
the marker value "1" under `synced_to_chatwoot:<id>`, the send use case
returns `True` and performs no WuzAPI send; and the sync use case writes
exactly that marker (value "1", TTL 30) after successfully sending a
self-sent text message to Chatwoot. -/
theorem c3_loop_guard_amended :
    (∀ (env : SendEnv) (d : List (String × JValue)),
      truthy (dGetD d "id" .null) = true →
      cacheLookup env.cache ("synced_to_chatwoot:" ++ pyStr (dGetD d "id" .null)) = some "1" →
      sendExecute env (.obj d) = (true, [])) ∧
    (∀ (env : SyncEnv) (msg : WhatsAppMessage) (n c : Int)
       (w1 : List (String × String × Nat)),
      msg.message_type = .text →
      msg.is_from_me = true →
      cacheHitTruthy env.cache ("sent_from_chatwoot:" ++ msg.message_id) = false →
      optIntTruthy env.contact_id = true →
      resolveConversation env (pformatted msg.senderRaw) = some (c, w1) →
      env.send_id = some n → n ≠ 0 →
      truthy (groupPrefixed msg (extract_text_content msg.raw_data)) = true →
      (syncExecute env msg).success = true ∧
      ("synced_to_chatwoot:" ++ toString n, "1", 30) ∈ (syncExecute env msg).writes) := by
  constructor
  · intro env d hid hcache
    have hc : cacheHitTruthy env.cache
        ("synced_to_chatwoot:" ++ pyStr (dGetD d "id" .null)) = true := by
      rw [cacheHitTruthy, hcache]
      rfl
    simp only [sendExecute, hid, hc, Bool.true_and, if_true]
  · intro env msg n c w1 htype hme hguard hcontact hconv hsend hn hcontent
    simp only [syncExecute]
    rw [if_neg (show ¬((msg.is_from_me &&
          cacheHitTruthy env.cache ("sent_from_chatwoot:" ++ msg.message_id)) = true) by
        simp [hme, hguard])]
    rw [if_neg (show ¬((!optIntTruthy env.contact_id) = true) by simp [hcontact])]
    rw [hconv]
    dsimp only
    rw [if_neg (show ¬(msg.message_type = .image ∨ msg.message_type = .video ∨
          msg.message_type = .audio ∨ msg.message_type = .ptt ∨
          msg.message_type = .document ∨ msg.message_type = .sticker) by
        simp [htype])]
    rw [if_pos htype]
    rw [if_pos hcontent]
    rw [hsend]
    dsimp only
    rw [if_pos (show (n != 0 && msg.is_from_me) = true by
        rw [hme]; simp [hn])]
    exact ⟨rfl, by simp⟩

/-- Witness for C2: the concrete location message against the all-successful
environment yields no Chatwoot send and a failed outcome. -/
theorem c2_location_sync_never_sends_witness :
    (syncExecute exSyncEnv exLocationMsg).ops = [] ∧
    (syncExecute exSyncEnv exLocationMsg).success = false :=
  ⟨(c2_location_sync_never_sends.2.1 exSyncEnv exLocationMsg rfl).1,
   (c2_location_sync_never_sends.2.1 exSyncEnv exLocationMsg rfl).2.2 rfl⟩

/-- Witness for C3's amended statement: a truthy id (42) with its marker in
the cache is skipped with success, and the concrete self-sent text sync
writes the marker for the created Chatwoot message id 77. -/
theorem c3_loop_guard_amended_witness :
    sendExecute
      (SendEnv.mk [("synced_to_chatwoot:42", "1")] true true true true true
        none true true none 0 [])
      (.obj [("id", .num 42), ("event", .str "message_created"),
             ("message_type", .str "outgoing"),
             ("sender", .obj [("type", .str "user")]),
             ("content", .str "hola"),
             ("conversation", .obj
               [("contact_inbox", .obj [("source_id", .str "+573001234567")])])]) =
      (true, []) ∧
    ((syncExecute exSyncEnv exTextMsg).success = true ∧
     ("synced_to_chatwoot:77", "1", 30) ∈ (syncExecute exSyncEnv exTextMsg).writes) :=
  ⟨c3_loop_guard_amended.1 _ _ rfl rfl,
   c3_loop_guard_amended.2 exSyncEnv exTextMsg 77 9 [("+573001234567", "9", 3600)]
     rfl rfl rfl rfl rfl rfl (by decide) rfl⟩

/-- Claim C4 (confirmed): the eligibility filter returns `True` exactly when
`event` is `message_created`, `message_type` is `outgoing`, `private` is
falsy, and the sender's `type` is `user` or `agent_bot`; and a payload
failing the conditions leads to no WuzAPI send at all. -/
theorem c4_eligibility_filter :
    (∀ d, shouldProcess d = .ok true ↔ eligible d = true) ∧
    (∀ (env : SendEnv) (d : List (String × JValue)), eligible d = false →
      (sendExecute env (.obj d)).2 = []) := by
  have key : ∀ d, shouldProcess d = .ok true ↔ eligible d = true := by
    intro d
    unfold shouldProcess eligible
    by_cases h1 : isStr (dGetD d "event" (.str "")) "message_created" = true
    · by_cases h2 : isStr (dGetD d "message_type" (.str "")) "outgoing" = true
      · by_cases h3 : truthy (dGetD d "private" (.bool false)) = true
        · simp [h1, h2, h3]
        · rcases hs : dGetD d "sender" (.obj []) with _ | b | n | s | xs | snd <;>
            simp [h1, h2, h3, hs]
          by_cases hu : isStr (dGetD snd "type" (.str "")) "user" = true
          · simp [hu]
          · by_cases ha : isStr (dGetD snd "type" (.str "")) "agent_bot" = true <;>
              simp [hu, ha]
      · simp [h1, h2]
    · simp [h1]
  refine ⟨key, ?_⟩
  intro env d hne
  simp only [sendExecute]
  by_cases hg : (truthy (dGetD d "id" .null) &&
      cacheHitTruthy env.cache
        ("synced_to_chatwoot:" ++ pyStr (dGetD d "id" .null))) = true
  · rw [if_pos hg]
  · rw [if_neg hg]
    rcases hsp : shouldProcess d with u | b
    · rfl
    · cases b
      · rfl
      · have hel := (key d).mp hsp
        rw [hne] at hel
        exact absurd hel (by simp)

/-- Witness for C4: a fully eligible payload passes the filter; one with
`message_type = incoming` produces no send. -/
theorem c4_eligibility_filter_witness :
    shouldProcess [("event", .str "message_created"),
      ("message_type", .str "outgoing"),
      ("sender", .obj [("type", .str "agent_bot")])] = .ok true ∧
    (sendExecute exSendEnv (.obj [("event", .str "message_created"),
      ("message_type", .str "incoming"), ("content", .str "hola"),
      ("conversation", .obj
        [("contact_inbox", .obj [("source_id", .str "+573001234567")])])])).2 = [] :=
  ⟨(c4_eligibility_filter.1 _).mpr rfl,
   c4_eligibility_filter.2 exSendEnv _ rfl⟩

/-- Claim C6 counterexample: CPython's `re.match(r'^\d+$', s)` also matches
when a single trailing newline follows the digits (`$` matches before a
final newline), so the non-group, non-status jid `"1234567890\n"` — whose
cleaned value is itself and does not consist only of digits (the newline is
no digit under any reading, ASCII or Unicode Nd) — is accepted by the
factory, against the claim's "exactly when the cleaned value consists only
of digits". -/
theorem c6_trailing_newline_accepted :
    pIsGroup "1234567890\n" = false ∧
    pIsStatus "1234567890\n" = false ∧
    strContains "1234567890\n" "@newsletter" = false ∧
    strContains "1234567890\n" "@lid" = false ∧
    pclean "1234567890\n" = "1234567890\n" ∧
    (from_whatsapp_jid "1234567890\n").isSome = true ∧
    ("1234567890\n".data.all isPyDigit) = false ∧
    ("1234567890\n".data.all Char.isDigit) = false := by
  decide

/-- Claim C6 as amended (only the regex clause changes, as the counterexample
forces): newsletter/lid jids are rejected; `status@broadcast` is accepted
unconditionally; and a non-group, non-status jid free of those markers is
accepted exactly when its cleaned value matches Python's `^\d+$` — Unicode
decimal digits (category Nd) only, or such digits followed by one trailing
newline — with cleaned length (counting that newline) between 10 and 15. -/
theorem c6_jid_factory_amended :
    (∀ jid, strContains jid "@newsletter" = true ∨ strContains jid "@lid" = true →
      from_whatsapp_jid jid = none) ∧
    from_whatsapp_jid "status@broadcast" = some "status@broadcast" ∧
    (∀ jid, pIsGroup jid = false → jid ≠ "status@broadcast" →
      strContains jid "@newsletter" = false → strContains jid "@lid" = false →
      ((from_whatsapp_jid jid).isSome = true ↔
        (pyDigitMatch (pclean jid) = true ∧
         10 ≤ (pclean jid).length ∧ (pclean jid).length ≤ 15))) := by
  refine ⟨?_, rfl, ?_⟩
  · intro jid h
    unfold from_whatsapp_jid
    by_cases h0 : jid = ""
    · subst h0
      rcases h with h | h <;> exact absurd h (by decide)
    · rw [if_neg h0]
      rcases h with h | h
      · rw [if_pos h]
      · by_cases hnw : strContains jid "@newsletter" = true
        · rw [if_pos hnw]
        · rw [if_neg hnw, if_pos h]
  · intro jid hg hst hnw hld
    by_cases h0 : jid = ""
    · subst h0
      decide
    · unfold from_whatsapp_jid
      rw [if_neg h0]
      rw [if_neg (show ¬(strContains jid "@newsletter" = true) by simp [hnw])]
      rw [if_neg (show ¬(strContains jid "@lid" = true) by simp [hld])]
      rw [if_neg hst]
      dsimp only
      rw [if_pos (show (!pIsGroup jid) = true by rw [hg]; rfl)]
      by_cases hd : pyDigitMatch (pclean jid) = true
      · rw [if_neg (show ¬((!pyDigitMatch (pclean jid)) = true) by simp [hd])]
        by_cases hlen : (decide ((pclean jid).length < 10) ||
            decide ((pclean jid).length > 15)) = true
        · rw [if_pos hlen]
          simp only [Bool.or_eq_true, decide_eq_true_eq] at hlen
          constructor
          · intro hfalse
            exact absurd hfalse (by simp)
          · rintro ⟨_, hl1, hl2⟩
            omega
        · rw [if_neg hlen]
          simp only [Bool.or_eq_true, decide_eq_true_eq, not_or, not_lt] at hlen
          constructor
          · intro _
            exact ⟨hd, by omega, by omega⟩
          · intro _
            rfl
      · rw [if_pos (show (!pyDigitMatch (pclean jid)) = true by simp [hd])]
        constructor
        · intro hfalse
          exact absurd hfalse (by simp)
        · rintro ⟨hdm, _, _⟩
          exact absurd hdm hd

/-- Witness for C6's amended statement at concrete jids, including a
ten-character Arabic-Indic digit jid that CPython's `\d` (and hence the
factory) accepts. -/
theorem c6_jid_factory_amended_witness :
    from_whatsapp_jid "1234567@newsletter" = none ∧
    (from_whatsapp_jid "573001234567@s.whatsapp.net").isSome = true ∧
    (from_whatsapp_jid "٠١٢٣٤٥٦٧٨٩").isSome = true :=
  ⟨c6_jid_factory_amended.1 "1234567@newsletter" (Or.inl (by decide)),
   (c6_jid_factory_amended.2.2 "573001234567@s.whatsapp.net" (by decide)
      (by decide) (by decide) (by decide)).mpr
     ⟨by decide, by decide, by decide⟩,
   (c6_jid_factory_amended.2.2 "٠١٢٣٤٥٦٧٨٩" (by decide)
      (by decide) (by decide) (by decide)).mpr
     ⟨by decide, by decide, by decide⟩⟩

/-- Claim C7 (confirmed): `extract_text_content` returns the `conversation`
field when present; else the `extendedTextMessage` body; else the caption of
`imageMessage`, `videoMessage`, `documentMessage`, or the nested
`documentWithCaptionMessage.message.documentMessage.caption`, in that
precedence order; and the empty string when none of these keys is present or
on a structural error (non-dict `event`/`Message` values, or a non-dict
nested node — one representative clause of each kind is included). -/
theorem c7_extract_text_precedence :
    (∀ (raw evd d : List (String × JValue)),
      dGetD raw "event" (.obj []) = .obj evd →
      dGetD evd "Message" (.obj []) = .obj d →
      ((hasKey d "conversation" = true →
         extract_text_content raw = dGetD d "conversation" .null) ∧
       (hasKey d "conversation" = false →
        ∀ e, dGetD d "extendedTextMessage" .null = .obj e →
         extract_text_content raw = dGetD e "text" (.str "")) ∧
       (hasKey d "conversation" = false →
        hasKey d "extendedTextMessage" = false →
        ∀ e, dGetD d "imageMessage" .null = .obj e →
         extract_text_content raw = dGetD e "caption" (.str "")) ∧
       (hasKey d "conversation" = false →
        hasKey d "extendedTextMessage" = false →
        hasKey d "imageMessage" = false →
        ∀ e, dGetD d "videoMessage" .null = .obj e →
         extract_text_content raw = dGetD e "caption" (.str "")) ∧
       (hasKey d "conversation" = false →
        hasKey d "extendedTextMessage" = false →
        hasKey d "imageMessage" = false →
        hasKey d "videoMessage" = false →
        ∀ e, dGetD d "documentMessage" .null = .obj e →
         extract_text_content raw = dGetD e "caption" (.str "")) ∧
       (hasKey d "conversation" = false →
        hasKey d "extendedTextMessage" = false →
        hasKey d "imageMessage" = false →
        hasKey d "videoMessage" = false →
        hasKey d "documentMessage" = false →
        ∀ e m dm, dGetD d "documentWithCaptionMessage" .null = .obj e →
         dGetD e "message" (.obj []) = .obj m →
         dGetD m "documentMessage" (.obj []) = .obj dm →
         extract_text_content raw = dGetD dm "caption" (.str "")) ∧
       (hasKey d "conversation" = false →
        hasKey d "extendedTextMessage" = false →
        hasKey d "imageMessage" = false →
        hasKey d "videoMessage" = false →
        hasKey d "documentMessage" = false →
        hasKey d "documentWithCaptionMessage" = false →
         extract_text_content raw = .str "") ∧
       (hasKey d "conversation" = false →
        hasKey d "extendedTextMessage" = true →
        (∀ e, dGetD d "extendedTextMessage" .null ≠ .obj e) →
         extract_text_content raw = .str ""))) ∧
    (∀ raw : List (String × JValue),
      (∀ evd, dGetD raw "event" (.obj []) ≠ .obj evd) →
      extract_text_content raw = .str "") ∧
    (∀ (raw evd : List (String × JValue)),
      dGetD raw "event" (.obj []) = .obj evd →
      (∀ d, dGetD evd "Message" (.obj []) ≠ .obj d) →
      extract_text_content raw = .str "") := by
  refine ⟨?_, ?_, ?_⟩
  · intro raw evd d hE hM
    refine ⟨?_, ?_, ?_, ?_, ?_, ?_, ?_, ?_⟩
    · intro h1
      simp only [extract_text_content, hE, hM, h1, if_true]
    · intro h1 e he
      have h2 : hasKey d "extendedTextMessage" = true := by
        unfold hasKey
        unfold dGetD at he
        rcases hl : dLookup d "extendedTextMessage" with _ | v
        · rw [hl] at he
          exact absurd he (by simp [Option.getD])
        · simp
      simp only [extract_text_content, hE, hM, h1, h2, he, if_true,
        Bool.false_eq_true, if_false]
    · intro h1 h2 e he
      have h3 : hasKey d "imageMessage" = true := by
        unfold hasKey
        unfold dGetD at he
        rcases hl : dLookup d "imageMessage" with _ | v
        · rw [hl] at he
          exact absurd he (by simp [Option.getD])
        · simp
      simp only [extract_text_content, hE, hM, h1, h2, h3, he, if_true,
        Bool.false_eq_true, if_false]
    · intro h1 h2 h3 e he
      have h4 : hasKey d "videoMessage" = true := by
        unfold hasKey
        unfold dGetD at he
        rcases hl : dLookup d "videoMessage" with _ | v
        · rw [hl] at he
          exact absurd he (by simp [Option.getD])
        · simp
      simp only [extract_text_content, hE, hM, h1, h2, h3, h4, he, if_true,
        Bool.false_eq_true, if_false]
    · intro h1 h2 h3 h4 e he
      have h5 : hasKey d "documentMessage" = true := by
        unfold hasKey
        unfold dGetD at he
        rcases hl : dLookup d "documentMessage" with _ | v
        · rw [hl] at he
          exact absurd he (by simp [Option.getD])
        · simp
      simp only [extract_text_content, hE, hM, h1, h2, h3, h4, h5, he, if_true,
        Bool.false_eq_true, if_false]
    · intro h1 h2 h3 h4 h5 e m dm he hm hdm
      have h6 : hasKey d "documentWithCaptionMessage" = true := by
        unfold hasKey
        unfold dGetD at he
        rcases hl : dLookup d "documentWithCaptionMessage" with _ | v
        · rw [hl] at he
          exact absurd he (by simp [Option.getD])
        · simp
      simp only [extract_text_content, hE, hM, h1, h2, h3, h4, h5, h6, he, hm,
        hdm, if_true, Bool.false_eq_true, if_false]
    · intro h1 h2 h3 h4 h5 h6
      simp only [extract_text_content, hE, hM, h1, h2, h3, h4, h5, h6,
        Bool.false_eq_true, if_false]
    · intro h1 h2 hne
      rcases hv : dGetD d "extendedTextMessage" .null with _ | b | n | s | xs | fs
      · simp only [extract_text_content, hE, hM, h1, h2, hv, if_true,
          Bool.false_eq_true, if_false]
      · simp only [extract_text_content, hE, hM, h1, h2, hv, if_true,
          Bool.false_eq_true, if_false]
      · simp only [extract_text_content, hE, hM, h1, h2, hv, if_true,
          Bool.false_eq_true, if_false]
      · simp only [extract_text_content, hE, hM, h1, h2, hv, if_true,
          Bool.false_eq_true, if_false]
      · simp only [extract_text_content, hE, hM, h1, h2, hv, if_true,
          Bool.false_eq_true, if_false]
      · exact absurd hv (hne fs)
  · intro raw h
    rcases hv : dGetD raw "event" (.obj []) with _ | b | n | s | xs | fs
    · simp only [extract_text_content, hv]
    · simp only [extract_text_content, hv]
    · simp only [extract_text_content, hv]
    · simp only [extract_text_content, hv]
    · simp only [extract_text_content, hv]
    · exact absurd hv (h fs)
  · intro raw evd hE h
    rcases hv : dGetD evd "Message" (.obj []) with _ | b | n | s | xs | fs
    · simp only [extract_text_content, hE, hv]
    · simp only [extract_text_content, hE, hv]
    · simp only [extract_text_content, hE, hv]
    · simp only [extract_text_content, hE, hv]
    · simp only [extract_text_content, hE, hv]
    · exact absurd hv (h fs)

/-- Witness for C7 at concrete payloads: an image caption, a plain
conversation, and an empty payload. -/
theorem c7_extract_text_precedence_witness :
    extract_text_content
      [("event", .obj [("Message", .obj
        [("imageMessage", .obj [("caption", .str "hello")])])])] = .str "hello" ∧
    extract_text_content
      [("event", .obj [("Message", .obj [("conversation", .str "hi")])])] = .str "hi" ∧
    extract_text_content [("event", .obj [("Message", .obj [])])] = .str "" :=
  ⟨((c7_extract_text_precedence.1
      [("event", .obj [("Message", .obj
        [("imageMessage", .obj [("caption", .str "hello")])])])]
      [("Message", .obj [("imageMessage", .obj [("caption", .str "hello")])])]
      [("imageMessage", .obj [("caption", .str "hello")])] rfl rfl).2.2.1
      rfl rfl [("caption", .str "hello")] rfl).trans rfl,
   ((c7_extract_text_precedence.1
      [("event", .obj [("Message", .obj [("conversation", .str "hi")])])]
      [("Message", .obj [("conversation", .str "hi")])]
      [("conversation", .str "hi")] rfl rfl).1 rfl).trans rfl,
   (c7_extract_text_precedence.1
      [("event", .obj [("Message", .obj [])])]
      [("Message", .obj [])] [] rfl rfl).2.2.2.2.2.2.1
     rfl rfl rfl rfl rfl rfl⟩

end Bridge
